import Mathlib

/-! # razor-go: the approve-if-needed flow and the epoch-gated claim flow

Shallow embedding of `cmd/approve.go` (`UtilsStruct.Approve`) and of the claim
flow exercised by `cmd/claimBounty_test.go` (`UtilsStruct.ClaimBounty`).

The Go code reaches the chain through package-level interface variables
(`razorUtils`, `tokenManagerUtils`, `stakeManagerUtils`, `transactionUtils`,
`timeUtils`).  They are embedded as records of state-passing functions over an
arbitrary world type `σ`: every call consumes the current world and returns its
Go results together with the next world, so a collaborator may answer
differently on every call.  Each flow additionally records the calls it makes,
in order, in a trace of `Event`s.
-/

namespace Razor

/-! ## Values exchanged with the collaborators -/

/-- Go `error` value that is not nil; `Option GoError` is a Go `error`. -/
structure GoError where
  msg : String
deriving DecidableEq, Repr

/-- The call `errors.New(text)`. -/
def errorsNew (text : String) : GoError := ⟨text⟩

/-- The type `common.Hash`: a 32-byte array, read as a big-endian number. -/
abbrev Hash := Nat

/-- The literal `common.Hash{0x00}`: every byte is zero. -/
def zeroHash : Hash := 0

/-- The type `common.Address`, a 20-byte array read as a number. -/
abbrev Address := Nat

/-- Handle `*ethclient.Client`. -/
structure EthClient where
  id : Nat
deriving DecidableEq, Repr

/-- Value of `bind.CallOpts`. -/
structure CallOpts where
  id : Nat
deriving DecidableEq, Repr

/-- Pointer `*bind.TransactOpts`. -/
structure TransactOpts where
  id : Nat
deriving DecidableEq, Repr

/-- Pointer `*Types.Transaction`. -/
structure Transaction where
  id : Nat
deriving DecidableEq, Repr

/-- A `*big.Int`: `none` is the nil pointer. -/
abbrev BigInt := Option Int

/-- The method `(*big.Int).Cmp`.  Its first case is pointer equality (`x == y`
    gives `0` without touching either operand), every other case reads the
    sign field of both operands, which panics on a nil pointer (`none`).  Two
    non-nil pointers compare by value. -/
def bigCmp : BigInt → BigInt → Option Int
  | none, none => some 0
  | some x, some y => some (if x < y then -1 else if x = y then 0 else 1)
  | _, _ => none

/-- One element of `[]interface{}` as built by the flows. -/
inductive Param where
  | address (a : Address)
  | bigInt (v : BigInt)
  | uint32 (v : Nat)
deriving DecidableEq, Repr

/-- Modelled from the spec: the declaration of `types.TransactionOptions` is
    not among the sources; these are the fields `Approve` reads or assigns,
    which are the fields of the spec's TransactionRequest (signer address,
    target contract, method name, ABI descriptor, parameters, nullable amount,
    client handle). -/
structure TransactionOptions where
  Client : EthClient
  AccountAddress : String
  ContractAddress : String
  MethodName : String
  ABI : String
  Parameters : List Param
  Amount : BigInt
deriving DecidableEq, Repr

/-- Constants and pure library functions that `Approve` uses and whose
    declarations are not among the sources: `core.StakeManagerAddress`,
    `core.RAZORAddress`, `bindings.RAZORABI` and `common.HexToAddress`. -/
structure Core where
  StakeManagerAddress : String
  RAZORAddress : String
  RAZORABI : String
  HexToAddress : String → Address

/-! ## Calls observed during one invocation -/

/-- One call made by a flow, with the arguments it passed. -/
inductive Event where
  | GetOptions
  | Allowance (client : EthClient) (opts : CallOpts) (owner spender : Address)
  | GetTxnOpts (args : TransactionOptions)
  | Approve (client : EthClient) (txnOpts : TransactOpts) (spender : Address) (amount : BigInt)
  | Hash (txn : Transaction)
  | LogDebug (text : String)
  | LogInfo (text : String) (hash : Option Hash)
  | GetEpoch (client : EthClient)
  | GetBountyLock (client : EthClient) (opts : CallOpts) (bountyId : Nat)
  | CalculateBlockTime (client : EthClient)
  | Sleep (seconds : Int)
  | RedeemBounty (client : EthClient) (txnOpts : TransactOpts) (bountyId : Nat)
deriving DecidableEq, Repr

/-- Whether the event is a call of `tokenManagerUtils.Approve`. -/
def Event.isApprove : Event → Bool
  | .Approve _ _ _ _ => true
  | _ => false

/-- Whether the event is a call of `razorUtils.GetTxnOpts`. -/
def Event.isGetTxnOpts : Event → Bool
  | .GetTxnOpts _ => true
  | _ => false

/-- Whether the event is a call of `transactionUtils.Hash`. -/
def Event.isHash : Event → Bool
  | .Hash _ => true
  | _ => false

/-- Number of approve submissions in a trace. -/
def approveSubmissions (t : List Event) : Nat := t.countP Event.isApprove

/-- Number of `GetTxnOpts` calls in a trace. -/
def getTxnOptsCalls (t : List Event) : Nat := t.countP Event.isGetTxnOpts

/-- Number of `transactionUtils.Hash` calls in a trace. -/
def hashCalls (t : List Event) : Nat := t.countP Event.isHash

/-- What one invocation of a flow leaves behind: the returned pair
    `(common.Hash, error)` (`none` when the invocation panicked instead of
    returning), the calls made in order, and the world afterwards. -/
structure Run (σ : Type) where
  result : Option (Hash × Option GoError)
  trace : List Event
  world : σ

/-! ## `cmd/approve.go` -/

/-- The collaborators of `Approve`: `razorUtils.GetOptions`,
    `tokenManagerUtils.Allowance`, `razorUtils.GetTxnOpts`,
    `tokenManagerUtils.Approve` and `transactionUtils.Hash`. -/
structure ApproveUtils (σ : Type) where
  GetOptions : σ → CallOpts × σ
  Allowance : EthClient → CallOpts → Address → Address → σ → (BigInt × Option GoError) × σ
  GetTxnOpts : TransactionOptions → σ → TransactOpts × σ
  Approve : EthClient → TransactOpts → Address → BigInt → σ →
    (Transaction × Option GoError) × σ
  Hash : Transaction → σ → Hash × σ

/-- The assignments of lines 21-24 of `approve.go` to the local copy of
    `txnArgs`. -/
def approveArgs (core : Core) (txnArgs : TransactionOptions) : TransactionOptions :=
  { txnArgs with
    ContractAddress := core.RAZORAddress
    MethodName := "approve"
    ABI := core.RAZORABI
    Parameters := [Param.address (core.HexToAddress core.StakeManagerAddress),
                   Param.bigInt txnArgs.Amount] }

/-- The method `(*UtilsStruct).Approve` of `cmd/approve.go`. -/
def Approve {σ : Type} (core : Core) (u : ApproveUtils σ) (txnArgs : TransactionOptions)
    (w : σ) : Run σ :=
  let optsR := u.GetOptions w
  let owner := core.HexToAddress txnArgs.AccountAddress
  let spender := core.HexToAddress core.StakeManagerAddress
  let allowR := u.Allowance txnArgs.Client optsR.1 owner spender optsR.2
  let t0 : List Event := [Event.GetOptions, Event.Allowance txnArgs.Client optsR.1 owner spender]
  match allowR.1.2 with
  | some err => { result := some (zeroHash, some err), trace := t0, world := allowR.2 }
  | none =>
    match bigCmp allowR.1.1 txnArgs.Amount with
    | none => { result := none, trace := t0, world := allowR.2 }
    | some c =>
      if c ≥ 0 then
        { result := some (zeroHash, none)
          trace := t0 ++ [Event.LogDebug "Sufficient allowance, no need to increase"]
          world := allowR.2 }
      else
        let args := approveArgs core txnArgs
        let optsT := u.GetTxnOpts args allowR.2
        let subR := u.Approve args.Client optsT.1 spender args.Amount optsT.2
        let t1 : List Event := t0 ++ [Event.LogInfo "Sending Approve transaction..." none,
          Event.GetTxnOpts args, Event.Approve args.Client optsT.1 spender args.Amount]
        match subR.1.2 with
        | some err => { result := some (zeroHash, some err), trace := t1, world := subR.2 }
        | none =>
          let h1 := u.Hash subR.1.1 subR.2
          let h2 := u.Hash subR.1.1 h1.2
          { result := some (h2.1, none)
            trace := t1 ++ [Event.Hash subR.1.1, Event.LogInfo "Txn Hash: " (some h1.1),
              Event.Hash subR.1.1]
            world := h2.2 }

/-- Results, calls and final world of `n` successive invocations of `Approve`
    with the same arguments, each starting in the world the previous one left. -/
structure Runs (σ : Type) where
  results : List (Option (Hash × Option GoError))
  trace : List Event
  world : σ

/-- A caller invoking `Approve` `n` times in a row. -/
def approveRepeatedly {σ : Type} (core : Core) (u : ApproveUtils σ)
    (txnArgs : TransactionOptions) : Nat → σ → Runs σ
  | 0, w => { results := [], trace := [], world := w }
  | n + 1, w =>
    let before := approveRepeatedly core u txnArgs n w
    let r := Approve core u txnArgs before.world
    { results := before.results ++ [r.result]
      trace := before.trace ++ r.trace
      world := r.world }

/-- The allowance read that `Approve` performs when started in world `w`:
    the value and error returned by `tokenManagerUtils.Allowance`. -/
def allowanceRead {σ : Type} (core : Core) (u : ApproveUtils σ) (txnArgs : TransactionOptions)
    (w : σ) : BigInt × Option GoError :=
  (u.Allowance txnArgs.Client (u.GetOptions w).1 (core.HexToAddress txnArgs.AccountAddress)
    (core.HexToAddress core.StakeManagerAddress) (u.GetOptions w).2).1

/-- The allowance read in world `w` succeeds with an allowance that is at least
    the requested amount. -/
def allowanceSatisfied {σ : Type} (core : Core) (u : ApproveUtils σ)
    (txnArgs : TransactionOptions) (w : σ) : Bool :=
  match allowanceRead core u txnArgs w, txnArgs.Amount with
  | (some a, none), some m => decide (m ≤ a)
  | _, _ => false

/-! ### A scripted test double for `Approve`

Every collaborator returns a fixed answer, as the mocks of the Go tests do; the
world is the number of collaborator calls made so far. -/

/-- Scripted collaborators: fixed allowance, submission and hash answers. -/
def scriptedApproveUtils (allowance : BigInt) (allowanceErr : Option GoError)
    (approveErr : Option GoError) (hash : Hash) : ApproveUtils Nat where
  GetOptions := fun w => (⟨0⟩, w + 1)
  Allowance := fun _ _ _ _ w => ((allowance, allowanceErr), w + 1)
  GetTxnOpts := fun _ w => (⟨1⟩, w + 1)
  Approve := fun _ _ _ _ w => ((⟨7⟩, approveErr), w + 1)
  Hash := fun _ w => (hash, w + 1)

/-- Constants for the scripted runs. -/
def scriptedCore : Core where
  StakeManagerAddress := "0x01"
  RAZORAddress := "0x02"
  RAZORABI := "abi"
  HexToAddress := fun s => s.length

/-- Arguments for the scripted runs: a request for `amount`. -/
def scriptedArgs (amount : BigInt) : TransactionOptions where
  Client := ⟨0⟩
  AccountAddress := "0x0dead"
  ContractAddress := ""
  MethodName := ""
  ABI := ""
  Parameters := []
  Amount := amount

/-! ## The claim flow (`ClaimBounty`) -/

/-- Modelled from the spec: the declaration of `types.BountyLock` is not among
    the sources.  The spec's BountyLock is a non-negative integer amount and
    the epoch after which it may be redeemed; the test builds it with the
    fields `Amount` and `RedeemAfter`. -/
structure BountyLock where
  Amount : Nat
  RedeemAfter : Nat
deriving DecidableEq, Repr

/-- Modelled from the spec: the declaration of `types.RedeemBountyInput` is not
    among the sources; the claim flow is given the signer address and the
    identifier of the bounty to redeem. -/
structure RedeemBountyInput where
  Address : String
  BountyId : Nat
deriving DecidableEq, Repr

/-- Modelled from the spec: the constants of the claim flow, none of which is
    declared among the sources: the descriptor of the `redeemBounty` method
    (target contract and ABI) and the epoch length in blocks, a network
    constant supplied by configuration. -/
structure ClaimCore where
  StakeManagerAddress : String
  StakeManagerABI : String
  EpochLength : Int

/-- The collaborators the test `TestClaimBounty` installs for `ClaimBounty`:
    `razorUtils.GetEpoch`, `razorUtils.GetOptions`,
    `stakeManagerUtils.GetBountyLock`, `razorUtils.CalculateBlockTime`,
    `timeUtils.Sleep`, `razorUtils.GetTxnOpts`,
    `stakeManagerUtils.RedeemBounty` and `transactionUtils.Hash`.  The block
    time is the `int64` number of seconds the test declares; `Sleep` is given
    its duration in seconds. -/
structure ClaimUtils (σ : Type) where
  GetEpoch : EthClient → σ → (Nat × Option GoError) × σ
  GetOptions : σ → CallOpts × σ
  GetBountyLock : EthClient → CallOpts → Nat → σ → (BountyLock × Option GoError) × σ
  CalculateBlockTime : EthClient → σ → Int × σ
  Sleep : Int → σ → σ
  GetTxnOpts : TransactionOptions → σ → TransactOpts × σ
  RedeemBounty : EthClient → TransactOpts → Nat → σ → (Transaction × Option GoError) × σ
  Hash : Transaction → σ → Hash × σ

/-- Modelled from the spec: the request of the `redeemBounty` method, with the
    bounty identifier as sole parameter (step 5 of the claim flow). -/
def redeemArgs (core : ClaimCore) (client : EthClient) (input : RedeemBountyInput) :
    TransactionOptions where
  Client := client
  AccountAddress := input.Address
  ContractAddress := core.StakeManagerAddress
  MethodName := "redeemBounty"
  ABI := core.StakeManagerABI
  Parameters := [Param.uint32 input.BountyId]
  Amount := none

/-- Modelled from the spec: the body of `(*UtilsStruct).ClaimBounty` is not
    among the sources (only its test `TestClaimBounty` is).  This follows the
    six steps of the spec's EpochGatedClaimFlow: read the epoch, read the lock,
    reject a zero amount with the error "bounty amount is 0", sleep once for
    `(RedeemAfter - epoch) * EpochLength * blockTime` seconds when the epoch is
    before `RedeemAfter`, build and submit `redeemBounty`, and answer a failed
    submission with the zero hash and a nil error.  `core.NilHash` is the zero
    hash. -/
def ClaimBounty {σ : Type} (core : ClaimCore) (u : ClaimUtils σ) (client : EthClient)
    (input : RedeemBountyInput) (w : σ) : Run σ :=
  let epochR := u.GetEpoch client w
  let t0 : List Event := [Event.GetEpoch client]
  match epochR.1.2 with
  | some err => { result := some (zeroHash, some err), trace := t0, world := epochR.2 }
  | none =>
    let optsR := u.GetOptions epochR.2
    let lockR := u.GetBountyLock client optsR.1 input.BountyId optsR.2
    let t1 : List Event := t0 ++ [Event.GetOptions,
      Event.GetBountyLock client optsR.1 input.BountyId]
    match lockR.1.2 with
    | some err => { result := some (zeroHash, some err), trace := t1, world := lockR.2 }
    | none =>
      if lockR.1.1.Amount = 0 then
        { result := some (zeroHash, some (errorsNew "bounty amount is 0"))
          trace := t1
          world := lockR.2 }
      else
        let epoch := epochR.1.1
        let lock := lockR.1.1
        let waited : List Event × σ :=
          if epoch < lock.RedeemAfter then
            let timeR := u.CalculateBlockTime client lockR.2
            let seconds : Int := ((lock.RedeemAfter - epoch : Nat) : Int) * core.EpochLength * timeR.1
            ([Event.CalculateBlockTime client, Event.Sleep seconds], u.Sleep seconds timeR.2)
          else
            ([], lockR.2)
        let args := redeemArgs core client input
        let optsT := u.GetTxnOpts args waited.2
        let subR := u.RedeemBounty client optsT.1 input.BountyId optsT.2
        let t2 : List Event := t1 ++ waited.1 ++ [Event.GetTxnOpts args,
          Event.RedeemBounty client optsT.1 input.BountyId]
        match subR.1.2 with
        | some _ => { result := some (zeroHash, none), trace := t2, world := subR.2 }
        | none =>
          let h := u.Hash subR.1.1 subR.2
          { result := some (h.1, none), trace := t2 ++ [Event.Hash subR.1.1], world := h.2 }

/-- Whether the event is a call of `stakeManagerUtils.RedeemBounty`. -/
def Event.isRedeemBounty : Event → Bool
  | .RedeemBounty _ _ _ => true
  | _ => false

/-- Whether the event is a call of `timeUtils.Sleep`. -/
def Event.isSleep : Event → Bool
  | .Sleep _ => true
  | _ => false

/-- Whether the event is a call of `stakeManagerUtils.GetBountyLock`. -/
def Event.isGetBountyLock : Event → Bool
  | .GetBountyLock _ _ _ => true
  | _ => false

/-- Number of `RedeemBounty` submissions in a trace. -/
def redeemSubmissions (t : List Event) : Nat := t.countP Event.isRedeemBounty

/-- Number of `Sleep` calls in a trace. -/
def sleepCalls (t : List Event) : Nat := t.countP Event.isSleep

/-- Number of `GetBountyLock` reads in a trace. -/
def lockReads (t : List Event) : Nat := t.countP Event.isGetBountyLock

/-! ### The test double of `TestClaimBounty`

Every collaborator returns the fixed answer of its `On(...).Return(...)` line
(lines 242-249 of `claimBounty_test.go`); the world is the number of
collaborator calls made so far. -/

/-- The arguments of one case of `TestClaimBounty`. -/
structure ClaimTestArgs where
  epoch : Nat
  epochErr : Option GoError
  bountyLock : BountyLock
  bountyLockErr : Option GoError
  redeemBountyErr : Option GoError
  hash : Hash
  blockTime : Int

/-- The mocks of `TestClaimBounty` for one test case. -/
def testClaimUtils (a : ClaimTestArgs) : ClaimUtils Nat where
  GetEpoch := fun _ w => ((a.epoch, a.epochErr), w + 1)
  GetOptions := fun w => (⟨0⟩, w + 1)
  GetBountyLock := fun _ _ _ w => ((a.bountyLock, a.bountyLockErr), w + 1)
  CalculateBlockTime := fun _ w => (a.blockTime, w + 1)
  Sleep := fun _ w => w + 1
  GetTxnOpts := fun _ w => (⟨1⟩, w + 1)
  RedeemBounty := fun _ _ _ w => ((⟨7⟩, a.redeemBountyErr), w + 1)
  Hash := fun _ w => (a.hash, w + 1)

/-- Constants for the scripted claim runs. -/
def testClaimCore : ClaimCore where
  StakeManagerAddress := "0x01"
  StakeManagerABI := "abi"
  EpochLength := 300

/-- The zero-valued `bountyInput` of `TestClaimBounty`. -/
def testBountyInput : RedeemBountyInput where
  Address := ""
  BountyId := 0

/-- Test 1 of `TestClaimBounty`: epoch 70, lock of 1000 redeemable after 70. -/
def claimTest1 : ClaimTestArgs :=
  { epoch := 70, epochErr := none, bountyLock := ⟨1000, 70⟩, bountyLockErr := none,
    redeemBountyErr := none, hash := 1, blockTime := 0 }

/-- Test 2 of `TestClaimBounty`: epoch 70, lock of 1000 redeemable after 80. -/
def claimTest2 : ClaimTestArgs :=
  { epoch := 70, epochErr := none, bountyLock := ⟨1000, 80⟩, bountyLockErr := none,
    redeemBountyErr := none, hash := 1, blockTime := 0 }

/-- Test 3 of `TestClaimBounty`: the epoch read fails. -/
def claimTest3 : ClaimTestArgs :=
  { epoch := 0, epochErr := some (errorsNew "epoch error"), bountyLock := ⟨0, 0⟩,
    bountyLockErr := none, redeemBountyErr := none, hash := 0, blockTime := 0 }

/-- Test 4 of `TestClaimBounty`: the bounty-lock read fails. -/
def claimTest4 : ClaimTestArgs :=
  { epoch := 70, epochErr := none, bountyLock := ⟨0, 0⟩,
    bountyLockErr := some (errorsNew "bountyLock error"), redeemBountyErr := none, hash := 0,
    blockTime := 0 }

/-- Test 5 of `TestClaimBounty`: the amount of the lock is 0. -/
def claimTest5 : ClaimTestArgs :=
  { epoch := 70, epochErr := none, bountyLock := ⟨0, 70⟩, bountyLockErr := none,
    redeemBountyErr := none, hash := 0, blockTime := 0 }

/-- Test 6 of `TestClaimBounty`: the `RedeemBounty` transaction fails. -/
def claimTest6 : ClaimTestArgs :=
  { epoch := 70, epochErr := none, bountyLock := ⟨1000, 70⟩, bountyLockErr := none,
    redeemBountyErr := some (errorsNew "redeemBounty error"), hash := 0, blockTime := 0 }

/-- Test 2 with a block time of 12 seconds instead of the zero value. -/
def claimTest2Timed : ClaimTestArgs := { claimTest2 with blockTime := 12 }

/-! ## Properties of `Approve` -/

/-- The trace of a run through the skip path. -/
theorem Approve_of_allowanceSatisfied {σ : Type} (core : Core) (u : ApproveUtils σ)
    (txnArgs : TransactionOptions) (w : σ)
    (h : allowanceSatisfied core u txnArgs w = true) :
    (Approve core u txnArgs w).result = some (zeroHash, none) ∧
    approveSubmissions (Approve core u txnArgs w).trace = 0 ∧
    getTxnOptsCalls (Approve core u txnArgs w).trace = 0 := by
  unfold allowanceSatisfied allowanceRead at h
  split at h
  · rename_i a m hread hamt
    have hle : m ≤ a := by simpa using h
    have h1 := congrArg Prod.fst hread
    have h2 := congrArg Prod.snd hread
    simp only at h1 h2
    have hc : (0 : Int) ≤ (if a < m then (-1 : Int) else if a = m then 0 else 1) := by
      split_ifs <;> omega
    simp [Approve, h1, h2, hamt, bigCmp, hc, approveSubmissions, getTxnOptsCalls,
      Event.isApprove, Event.isGetTxnOpts]
  · simp at h

/-- Repeated invocations under a satisfied allowance. -/
theorem approveRepeatedly_of_allowanceSatisfied {σ : Type} (core : Core) (u : ApproveUtils σ)
    (txnArgs : TransactionOptions) (w : σ) (n : Nat)
    (h : ∀ i, i < n →
      allowanceSatisfied core u txnArgs (approveRepeatedly core u txnArgs i w).world = true) :
    (approveRepeatedly core u txnArgs n w).results = List.replicate n (some (zeroHash, none)) ∧
    approveSubmissions (approveRepeatedly core u txnArgs n w).trace = 0 ∧
    getTxnOptsCalls (approveRepeatedly core u txnArgs n w).trace = 0 := by
  induction n with
  | zero => simp [approveRepeatedly, approveSubmissions, getTxnOptsCalls]
  | succ k ih =>
    obtain ⟨ihr, iha, ihg⟩ := ih (fun i hi => h i (Nat.lt_succ_of_lt hi))
    obtain ⟨hr, ha, hg⟩ := Approve_of_allowanceSatisfied core u txnArgs
      (approveRepeatedly core u txnArgs k w).world (h k (Nat.lt_succ_self k))
    unfold approveSubmissions getTxnOptsCalls at *
    simp only [approveRepeatedly, List.countP_append, ihr, iha, ihg, hr, ha, hg]
    simp [List.replicate_succ']

/-- C1: whenever the allowance read succeeds with `allowance >= txnArgs.Amount`
    (equality included), `Approve` returns the zero hash with a nil error and
    calls neither `razorUtils.GetTxnOpts` nor `tokenManagerUtils.Approve`; and
    any number `n` of invocations in a row, each finding the allowance
    satisfied, return `n` times (zero hash, nil) and make no such call. -/
theorem Approve_skip_path {σ : Type} (core : Core) (u : ApproveUtils σ)
    (txnArgs : TransactionOptions) (w w1 w2 : σ) (opts : CallOpts) (allowance amount : Int)
    (hopts : u.GetOptions w = (opts, w1))
    (hread : u.Allowance txnArgs.Client opts (core.HexToAddress txnArgs.AccountAddress)
      (core.HexToAddress core.StakeManagerAddress) w1 = ((some allowance, none), w2))
    (hamount : txnArgs.Amount = some amount)
    (hge : allowance ≥ amount) :
    (Approve core u txnArgs w).result = some (zeroHash, none) ∧
    approveSubmissions (Approve core u txnArgs w).trace = 0 ∧
    getTxnOptsCalls (Approve core u txnArgs w).trace = 0 ∧
    ∀ (n : Nat) (w0 : σ),
      (∀ i, i < n →
        allowanceSatisfied core u txnArgs (approveRepeatedly core u txnArgs i w0).world = true) →
      (approveRepeatedly core u txnArgs n w0).results
          = List.replicate n (some (zeroHash, none)) ∧
      approveSubmissions (approveRepeatedly core u txnArgs n w0).trace = 0 ∧
      getTxnOptsCalls (approveRepeatedly core u txnArgs n w0).trace = 0 := by
  have hsat : allowanceSatisfied core u txnArgs w = true := by
    simp [allowanceSatisfied, allowanceRead, hopts, hread, hamount]
    exact hge
  obtain ⟨hr, ha, hg⟩ := Approve_of_allowanceSatisfied core u txnArgs w hsat
  exact ⟨hr, ha, hg, fun n w0 h => approveRepeatedly_of_allowanceSatisfied core u txnArgs w0 n h⟩

/-- Scenario B (allowance 1000, requested 1000) and three invocations in a row. -/
theorem Approve_skip_path_witness :
    (Approve scriptedCore (scriptedApproveUtils (some 1000) none none 1)
        (scriptedArgs (some 1000)) 0).result = some (zeroHash, none) ∧
    approveSubmissions (Approve scriptedCore (scriptedApproveUtils (some 1000) none none 1)
        (scriptedArgs (some 1000)) 0).trace = 0 ∧
    (approveRepeatedly scriptedCore (scriptedApproveUtils (some 1000) none none 1)
        (scriptedArgs (some 1000)) 3 0).results
      = [some (zeroHash, none), some (zeroHash, none), some (zeroHash, none)] ∧
    approveSubmissions (approveRepeatedly scriptedCore
        (scriptedApproveUtils (some 1000) none none 1) (scriptedArgs (some 1000)) 3 0).trace = 0 :=
  have h := Approve_skip_path scriptedCore (scriptedApproveUtils (some 1000) none none 1)
    (scriptedArgs (some 1000)) 0 1 2 ⟨0⟩ 1000 1000 rfl rfl rfl (by decide)
  have h3 := h.2.2.2 3 0 (by decide)
  ⟨h.1, h.2.1, h3.1, h3.2.1⟩

/-- C2: whenever the allowance read succeeds with `allowance < txnArgs.Amount`,
    `Approve` calls `tokenManagerUtils.Approve` exactly once, after the
    allowance read, with the StakeManager address as spender and
    `txnArgs.Amount` as amount; the request handed to `GetTxnOpts` has
    `MethodName` "approve" and `Parameters` (StakeManager address,
    `txnArgs.Amount`); and when the submission succeeds the result is the
    answer of `transactionUtils.Hash` on the returned transaction (the answer
    of its second call, the first one feeding the log line) with a nil error. -/
theorem Approve_submit_path {σ : Type} (core : Core) (u : ApproveUtils σ)
    (txnArgs : TransactionOptions) (w w1 w2 w3 w4 : σ) (opts : CallOpts)
    (allowance amount : Int) (txnOpts : TransactOpts) (txn : Transaction)
    (submitErr : Option GoError)
    (hopts : u.GetOptions w = (opts, w1))
    (hread : u.Allowance txnArgs.Client opts (core.HexToAddress txnArgs.AccountAddress)
      (core.HexToAddress core.StakeManagerAddress) w1 = ((some allowance, none), w2))
    (hamount : txnArgs.Amount = some amount)
    (hlt : allowance < amount)
    (hbuild : u.GetTxnOpts (approveArgs core txnArgs) w2 = (txnOpts, w3))
    (hsubmit : u.Approve txnArgs.Client txnOpts (core.HexToAddress core.StakeManagerAddress)
      (some amount) w3 = ((txn, submitErr), w4)) :
    approveSubmissions (Approve core u txnArgs w).trace = 1 ∧
    (∃ post : List Event,
      (Approve core u txnArgs w).trace =
        [Event.GetOptions,
         Event.Allowance txnArgs.Client opts (core.HexToAddress txnArgs.AccountAddress)
           (core.HexToAddress core.StakeManagerAddress),
         Event.LogInfo "Sending Approve transaction..." none,
         Event.GetTxnOpts (approveArgs core txnArgs),
         Event.Approve txnArgs.Client txnOpts (core.HexToAddress core.StakeManagerAddress)
           (some amount)] ++ post ∧
      approveSubmissions post = 0) ∧
    (approveArgs core txnArgs).MethodName = "approve" ∧
    (approveArgs core txnArgs).Parameters =
      [Param.address (core.HexToAddress core.StakeManagerAddress), Param.bigInt (some amount)] ∧
    (submitErr = none →
      (Approve core u txnArgs w).result = some ((u.Hash txn (u.Hash txn w4).2).1, none)) := by
  have hargs : (approveArgs core txnArgs).Client = txnArgs.Client := rfl
  have hargsAmt : (approveArgs core txnArgs).Amount = some amount := hamount
  refine ⟨?_, ?_, rfl, by simp [approveArgs, hamount], ?_⟩
  · cases submitErr <;>
      simp [Approve, hopts, hread, hamount, bigCmp, hlt, hbuild, hargs, hargsAmt, hsubmit,
        approveSubmissions, Event.isApprove]
  · cases submitErr with
    | none =>
      refine ⟨[Event.Hash txn, Event.LogInfo "Txn Hash: " (some (u.Hash txn w4).1),
        Event.Hash txn], ?_, ?_⟩
      · simp [Approve, hopts, hread, hamount, bigCmp, hlt, hbuild, hargs, hargsAmt, hsubmit]
      · simp [approveSubmissions, Event.isApprove]
    | some e =>
      refine ⟨[], ?_, ?_⟩
      · simp [Approve, hopts, hread, hamount, bigCmp, hlt, hbuild, hargs, hargsAmt, hsubmit]
      · simp [approveSubmissions]
  · intro he
    subst he
    simp [Approve, hopts, hread, hamount, bigCmp, hlt, hbuild, hargs, hargsAmt, hsubmit]

/-- Scenario A: allowance 500, requested 1000, the network answers hash 1. -/
theorem Approve_submit_path_witness :
    approveSubmissions (Approve scriptedCore (scriptedApproveUtils (some 500) none none 1)
        (scriptedArgs (some 1000)) 0).trace = 1 ∧
    (Approve scriptedCore (scriptedApproveUtils (some 500) none none 1)
        (scriptedArgs (some 1000)) 0).result = some (1, none) :=
  have h := Approve_submit_path scriptedCore (scriptedApproveUtils (some 500) none none 1)
    (scriptedArgs (some 1000)) 0 1 2 3 4 ⟨0⟩ 500 1000 ⟨1⟩ ⟨7⟩ none rfl rfl rfl (by decide)
    rfl rfl
  ⟨h.1, h.2.2.2.2 rfl⟩

/-- C3: when the allowance read returns an error `e`, `Approve` returns the
    zero hash together with `e` and calls neither `razorUtils.GetTxnOpts` nor
    `tokenManagerUtils.Approve`, whatever allowance value comes with the error
    and whatever `txnArgs.Amount` is (nil included). -/
theorem Approve_read_error {σ : Type} (core : Core) (u : ApproveUtils σ)
    (txnArgs : TransactionOptions) (w w1 w2 : σ) (opts : CallOpts) (allowance : BigInt)
    (e : GoError)
    (hopts : u.GetOptions w = (opts, w1))
    (hread : u.Allowance txnArgs.Client opts (core.HexToAddress txnArgs.AccountAddress)
      (core.HexToAddress core.StakeManagerAddress) w1 = ((allowance, some e), w2)) :
    (Approve core u txnArgs w).result = some (zeroHash, some e) ∧
    approveSubmissions (Approve core u txnArgs w).trace = 0 ∧
    getTxnOptsCalls (Approve core u txnArgs w).trace = 0 := by
  simp [Approve, hopts, hread, approveSubmissions, getTxnOptsCalls, Event.isApprove,
    Event.isGetTxnOpts]

/-- A failed read that still carries an allowance above the requested amount. -/
theorem Approve_read_error_witness :
    (Approve scriptedCore
        (scriptedApproveUtils (some 5000) (some (errorsNew "allowance error")) none 1)
        (scriptedArgs (some 1000)) 0).result = some (zeroHash, some (errorsNew "allowance error")) ∧
    approveSubmissions (Approve scriptedCore
        (scriptedApproveUtils (some 5000) (some (errorsNew "allowance error")) none 1)
        (scriptedArgs (some 1000)) 0).trace = 0 :=
  have h := Approve_read_error scriptedCore
    (scriptedApproveUtils (some 5000) (some (errorsNew "allowance error")) none 1)
    (scriptedArgs (some 1000)) 0 1 2 ⟨0⟩ (some 5000) (errorsNew "allowance error") rfl rfl
  ⟨h.1, h.2.1⟩

/-- C4: with `allowance < txnArgs.Amount`, when the approve submission returns
    an error `e`, `Approve` returns the zero hash together with `e`, never
    calls `transactionUtils.Hash`, and has made exactly one approve submission. -/
theorem Approve_submission_error {σ : Type} (core : Core) (u : ApproveUtils σ)
    (txnArgs : TransactionOptions) (w w1 w2 w3 w4 : σ) (opts : CallOpts)
    (allowance amount : Int) (txnOpts : TransactOpts) (txn : Transaction) (e : GoError)
    (hopts : u.GetOptions w = (opts, w1))
    (hread : u.Allowance txnArgs.Client opts (core.HexToAddress txnArgs.AccountAddress)
      (core.HexToAddress core.StakeManagerAddress) w1 = ((some allowance, none), w2))
    (hamount : txnArgs.Amount = some amount)
    (hlt : allowance < amount)
    (hbuild : u.GetTxnOpts (approveArgs core txnArgs) w2 = (txnOpts, w3))
    (hsubmit : u.Approve txnArgs.Client txnOpts (core.HexToAddress core.StakeManagerAddress)
      (some amount) w3 = ((txn, some e), w4)) :
    (Approve core u txnArgs w).result = some (zeroHash, some e) ∧
    hashCalls (Approve core u txnArgs w).trace = 0 ∧
    approveSubmissions (Approve core u txnArgs w).trace = 1 := by
  have hargs : (approveArgs core txnArgs).Client = txnArgs.Client := rfl
  have hargsAmt : (approveArgs core txnArgs).Amount = some amount := hamount
  simp [Approve, hopts, hread, hamount, bigCmp, hlt, hbuild, hargs, hargsAmt, hsubmit,
    approveSubmissions, hashCalls, Event.isApprove, Event.isHash]

/-- Allowance 500, requested 1000, the submission fails. -/
theorem Approve_submission_error_witness :
    (Approve scriptedCore
        (scriptedApproveUtils (some 500) none (some (errorsNew "approve error")) 1)
        (scriptedArgs (some 1000)) 0).result = some (zeroHash, some (errorsNew "approve error")) ∧
    approveSubmissions (Approve scriptedCore
        (scriptedApproveUtils (some 500) none (some (errorsNew "approve error")) 1)
        (scriptedArgs (some 1000)) 0).trace = 1 :=
  have h := Approve_submission_error scriptedCore
    (scriptedApproveUtils (some 500) none (some (errorsNew "approve error")) 1)
    (scriptedArgs (some 1000)) 0 1 2 3 4 ⟨0⟩ 500 1000 ⟨1⟩ ⟨7⟩ (errorsNew "approve error")
    rfl rfl rfl (by decide) rfl rfl
  ⟨h.1, h.2.2⟩

/-- C5 as stated fails: with allowance 500 below the requested 1000, a
    successful submission and a hash function answering the zero hash,
    `Approve` returns (zero hash, nil) although it made one approve submission. -/
theorem Approve_zero_hash_after_submission :
    (Approve scriptedCore (scriptedApproveUtils (some 500) none none 0)
        (scriptedArgs (some 1000)) 0).result = some (zeroHash, none) ∧
    approveSubmissions (Approve scriptedCore (scriptedApproveUtils (some 500) none none 0)
        (scriptedArgs (some 1000)) 0).trace = 1 := by
  decide

/-- C5, amended: when `transactionUtils.Hash` never answers the zero hash, a
    result (zero hash, nil) of `Approve` means that no approve submission was
    made: the allowance read succeeded and `allowance.Cmp(txnArgs.Amount) >= 0`
    held, that is `allowance >= txnArgs.Amount`, or both pointers nil. -/
theorem Approve_zero_hash_nil_error {σ : Type} (core : Core) (u : ApproveUtils σ)
    (txnArgs : TransactionOptions) (w : σ)
    (hhash : ∀ (txn : Transaction) (w0 : σ), (u.Hash txn w0).1 ≠ zeroHash)
    (hres : (Approve core u txnArgs w).result = some (zeroHash, none)) :
    approveSubmissions (Approve core u txnArgs w).trace = 0 ∧
    (allowanceRead core u txnArgs w).2 = none ∧
    (((allowanceRead core u txnArgs w).1 = none ∧ txnArgs.Amount = none) ∨
      ∃ allowance amount : Int, (allowanceRead core u txnArgs w).1 = some allowance ∧
        txnArgs.Amount = some amount ∧ allowance ≥ amount) := by
  unfold allowanceRead
  unfold Approve at hres ⊢
  simp only at hres ⊢
  generalize u.Allowance txnArgs.Client (u.GetOptions w).1
    (core.HexToAddress txnArgs.AccountAddress) (core.HexToAddress core.StakeManagerAddress)
    (u.GetOptions w).2 = rd at hres ⊢
  obtain ⟨⟨av, ae⟩, wr⟩ := rd
  cases ae with
  | some e => simp at hres
  | none =>
    cases av with
    | none =>
      cases hamt : txnArgs.Amount with
      | none =>
        simp [hamt, bigCmp, approveSubmissions, Event.isApprove]
      | some m => simp [hamt, bigCmp] at hres
    | some a =>
      cases hamt : txnArgs.Amount with
      | none => simp [hamt, bigCmp] at hres
      | some m =>
        by_cases hlt : a < m
        · exfalso
          have hargsAmt : (approveArgs core txnArgs).Amount = some m := hamt
          simp only [hamt, bigCmp, hlt, if_true] at hres
          simp only [show ¬ ((-1 : Int) ≥ 0) by decide, if_false] at hres
          split at hres
          · simp at hres
          · simp only [Run.result, Option.some.injEq, Prod.mk.injEq, and_true] at hres
            exact hhash _ _ hres
        · have hc : (0 : Int) ≤ (if a = m then 0 else 1) := by split_ifs <;> omega
          simp [hamt, bigCmp, hlt, hc, approveSubmissions, Event.isApprove]
          omega

/-- Scenario B again, read backwards from its result. -/
theorem Approve_zero_hash_nil_error_witness :
    approveSubmissions (Approve scriptedCore (scriptedApproveUtils (some 1000) none none 1)
        (scriptedArgs (some 1000)) 0).trace = 0 :=
  (Approve_zero_hash_nil_error scriptedCore (scriptedApproveUtils (some 1000) none none 1)
    (scriptedArgs (some 1000)) 0 (fun _ _ => Nat.one_ne_zero) rfl).1

/-! ## Properties of `ClaimBounty` -/

/-- C6: when the epoch read and the bounty-lock read both succeed and
    `lock.Amount == 0`, `ClaimBounty` returns the zero hash and the error
    "bounty amount is 0", makes no `RedeemBounty` submission and never sleeps,
    for every epoch and every `RedeemAfter`. -/
theorem ClaimBounty_zero_amount {σ : Type} (core : ClaimCore) (u : ClaimUtils σ)
    (client : EthClient) (input : RedeemBountyInput) (w w1 w2 w3 : σ) (epoch : Nat)
    (opts : CallOpts) (lock : BountyLock)
    (hepoch : u.GetEpoch client w = ((epoch, none), w1))
    (hopts : u.GetOptions w1 = (opts, w2))
    (hlock : u.GetBountyLock client opts input.BountyId w2 = ((lock, none), w3))
    (hzero : lock.Amount = 0) :
    (∃ e : GoError, (ClaimBounty core u client input w).result = some (zeroHash, some e) ∧
      e.msg = "bounty amount is 0") ∧
    redeemSubmissions (ClaimBounty core u client input w).trace = 0 ∧
    sleepCalls (ClaimBounty core u client input w).trace = 0 := by
  refine ⟨⟨errorsNew "bounty amount is 0", ?_, rfl⟩, ?_, ?_⟩ <;>
    simp [ClaimBounty, hepoch, hopts, hlock, hzero, redeemSubmissions, sleepCalls,
      Event.isRedeemBounty, Event.isSleep]

/-- Test 5 of `TestClaimBounty`: epoch 70, lock of 0 redeemable after 70. -/
theorem ClaimBounty_zero_amount_witness :
    (∃ e : GoError,
      (ClaimBounty testClaimCore (testClaimUtils claimTest5) ⟨0⟩ testBountyInput 0).result
        = some (zeroHash, some e) ∧ e.msg = "bounty amount is 0") ∧
    redeemSubmissions
      (ClaimBounty testClaimCore (testClaimUtils claimTest5) ⟨0⟩ testBountyInput 0).trace = 0 ∧
    sleepCalls
      (ClaimBounty testClaimCore (testClaimUtils claimTest5) ⟨0⟩ testBountyInput 0).trace = 0 :=
  ClaimBounty_zero_amount testClaimCore (testClaimUtils claimTest5) ⟨0⟩
    testBountyInput 0 1 2 3 70 ⟨0⟩ ⟨0, 70⟩ rfl rfl rfl rfl

/-- C7: when both reads succeed with `epoch >= lock.RedeemAfter` (equality
    included) and `lock.Amount > 0`, `ClaimBounty` makes exactly one
    `RedeemBounty` submission and no `Sleep` call, and when the submission
    succeeds it returns the hash of the submitted transaction with a nil
    error. -/
theorem ClaimBounty_eligible {σ : Type} (core : ClaimCore) (u : ClaimUtils σ)
    (client : EthClient) (input : RedeemBountyInput) (w w1 w2 w3 w4 w5 : σ) (epoch : Nat)
    (opts : CallOpts) (lock : BountyLock) (txnOpts : TransactOpts) (txn : Transaction)
    (submitErr : Option GoError)
    (hepoch : u.GetEpoch client w = ((epoch, none), w1))
    (hopts : u.GetOptions w1 = (opts, w2))
    (hlock : u.GetBountyLock client opts input.BountyId w2 = ((lock, none), w3))
    (hpos : lock.Amount > 0)
    (hge : epoch ≥ lock.RedeemAfter)
    (hbuild : u.GetTxnOpts (redeemArgs core client input) w3 = (txnOpts, w4))
    (hsubmit : u.RedeemBounty client txnOpts input.BountyId w4 = ((txn, submitErr), w5)) :
    redeemSubmissions (ClaimBounty core u client input w).trace = 1 ∧
    sleepCalls (ClaimBounty core u client input w).trace = 0 ∧
    (submitErr = none →
      (ClaimBounty core u client input w).result = some ((u.Hash txn w5).1, none)) := by
  have hne : lock.Amount ≠ 0 := by omega
  have hnlt : ¬ epoch < lock.RedeemAfter := by omega
  cases submitErr <;>
    simp [ClaimBounty, hepoch, hopts, hlock, hne, hnlt, hbuild, hsubmit, redeemSubmissions,
      sleepCalls, Event.isRedeemBounty, Event.isSleep]

/-- Test 1 of `TestClaimBounty`: epoch 70, lock of 1000 redeemable after 70,
    hash 1. -/
theorem ClaimBounty_eligible_witness :
    redeemSubmissions
      (ClaimBounty testClaimCore (testClaimUtils claimTest1) ⟨0⟩ testBountyInput 0).trace = 1 ∧
    sleepCalls
      (ClaimBounty testClaimCore (testClaimUtils claimTest1) ⟨0⟩ testBountyInput 0).trace = 0 ∧
    (ClaimBounty testClaimCore (testClaimUtils claimTest1) ⟨0⟩ testBountyInput 0).result
      = some (1, none) :=
  have h := ClaimBounty_eligible testClaimCore (testClaimUtils claimTest1) ⟨0⟩
    testBountyInput 0 1 2 3 4 5 70 ⟨0⟩ ⟨1000, 70⟩ ⟨1⟩ ⟨7⟩ none rfl rfl rfl (by decide)
    (by decide) rfl rfl
  ⟨h.1, h.2.1, h.2.2 rfl⟩

/-- C8: when both reads succeed with `epoch < lock.RedeemAfter` and
    `lock.Amount > 0`, `ClaimBounty` sleeps exactly once, for
    `(lock.RedeemAfter - epoch) * EpochLength * blockTime` seconds, `blockTime`
    being the answer of `CalculateBlockTime`, and only afterwards makes its one
    `RedeemBounty` submission; when the submission succeeds it returns the hash
    of the submitted transaction with a nil error. -/
theorem ClaimBounty_waits {σ : Type} (core : ClaimCore) (u : ClaimUtils σ)
    (client : EthClient) (input : RedeemBountyInput) (w w1 w2 w3 w4 w5 w6 w7 : σ) (epoch : Nat)
    (opts : CallOpts) (lock : BountyLock) (blockTime : Int) (txnOpts : TransactOpts)
    (txn : Transaction) (submitErr : Option GoError)
    (hepoch : u.GetEpoch client w = ((epoch, none), w1))
    (hopts : u.GetOptions w1 = (opts, w2))
    (hlock : u.GetBountyLock client opts input.BountyId w2 = ((lock, none), w3))
    (hpos : lock.Amount > 0)
    (hlt : epoch < lock.RedeemAfter)
    (htime : u.CalculateBlockTime client w3 = (blockTime, w4))
    (hsleep : u.Sleep (((lock.RedeemAfter : Int) - (epoch : Int)) * core.EpochLength * blockTime)
      w4 = w5)
    (hbuild : u.GetTxnOpts (redeemArgs core client input) w5 = (txnOpts, w6))
    (hsubmit : u.RedeemBounty client txnOpts input.BountyId w6 = ((txn, submitErr), w7)) :
    sleepCalls (ClaimBounty core u client input w).trace = 1 ∧
    redeemSubmissions (ClaimBounty core u client input w).trace = 1 ∧
    (∃ post : List Event,
      (ClaimBounty core u client input w).trace =
        [Event.GetEpoch client, Event.GetOptions,
         Event.GetBountyLock client opts input.BountyId,
         Event.CalculateBlockTime client,
         Event.Sleep (((lock.RedeemAfter : Int) - (epoch : Int)) * core.EpochLength * blockTime),
         Event.GetTxnOpts (redeemArgs core client input),
         Event.RedeemBounty client txnOpts input.BountyId] ++ post ∧
      sleepCalls post = 0 ∧ redeemSubmissions post = 0) ∧
    (submitErr = none →
      (ClaimBounty core u client input w).result = some ((u.Hash txn w7).1, none)) := by
  have hne : lock.Amount ≠ 0 := by omega
  have hcast : ((lock.RedeemAfter - epoch : Nat) : Int)
      = (lock.RedeemAfter : Int) - (epoch : Int) := by omega
  cases submitErr with
  | none =>
    refine ⟨?_, ?_, ⟨[Event.Hash txn], ?_, ?_, ?_⟩, ?_⟩ <;>
      simp [ClaimBounty, hepoch, hopts, hlock, hne, hlt, htime, hcast, hsleep, hbuild, hsubmit,
        redeemSubmissions, sleepCalls, Event.isRedeemBounty, Event.isSleep]
  | some e =>
    refine ⟨?_, ?_, ⟨[], ?_, ?_, ?_⟩, ?_⟩ <;>
      simp [ClaimBounty, hepoch, hopts, hlock, hne, hlt, htime, hcast, hsleep, hbuild, hsubmit,
        redeemSubmissions, sleepCalls, Event.isRedeemBounty, Event.isSleep]

/-- Test 2 of `TestClaimBounty` (epoch 70, lock of 1000 redeemable after 80)
    with a block time of 12 seconds and 300 blocks per epoch: one sleep of
    10 * 300 * 12 seconds. -/
theorem ClaimBounty_waits_witness :
    sleepCalls (ClaimBounty testClaimCore (testClaimUtils claimTest2Timed) ⟨0⟩
      testBountyInput 0).trace = 1 ∧
    Event.Sleep 36000 ∈ (ClaimBounty testClaimCore (testClaimUtils claimTest2Timed) ⟨0⟩
      testBountyInput 0).trace ∧
    (ClaimBounty testClaimCore (testClaimUtils claimTest2Timed) ⟨0⟩ testBountyInput 0).result
      = some (1, none) :=
  have h := ClaimBounty_waits testClaimCore (testClaimUtils claimTest2Timed) ⟨0⟩
    testBountyInput 0 1 2 3 4 5 6 7 70 ⟨0⟩ ⟨1000, 80⟩ 12 ⟨1⟩ ⟨7⟩ none rfl rfl rfl (by decide)
    (by decide) rfl rfl rfl rfl
  ⟨h.1, by decide, h.2.2.2 rfl⟩

/-- C9: when the epoch read returns an error `e`, `ClaimBounty` returns
    (`core.NilHash`, `e`) without reading the lock, sleeping or submitting; when
    the epoch read succeeds and the bounty-lock read returns an error `e`, it
    returns (`core.NilHash`, `e`) without sleeping or submitting. -/
theorem ClaimBounty_read_errors {σ : Type} (core : ClaimCore) (u : ClaimUtils σ)
    (client : EthClient) (input : RedeemBountyInput) (w w1 w2 w3 : σ) (epoch : Nat)
    (opts : CallOpts) (lock : BountyLock) (e : GoError) :
    (u.GetEpoch client w = ((epoch, some e), w1) →
      (ClaimBounty core u client input w).result = some (zeroHash, some e) ∧
      lockReads (ClaimBounty core u client input w).trace = 0 ∧
      sleepCalls (ClaimBounty core u client input w).trace = 0 ∧
      redeemSubmissions (ClaimBounty core u client input w).trace = 0) ∧
    (u.GetEpoch client w = ((epoch, none), w1) →
      u.GetOptions w1 = (opts, w2) →
      u.GetBountyLock client opts input.BountyId w2 = ((lock, some e), w3) →
      (ClaimBounty core u client input w).result = some (zeroHash, some e) ∧
      sleepCalls (ClaimBounty core u client input w).trace = 0 ∧
      redeemSubmissions (ClaimBounty core u client input w).trace = 0) := by
  constructor
  · intro hepoch
    simp [ClaimBounty, hepoch, lockReads, redeemSubmissions, sleepCalls, Event.isGetBountyLock,
      Event.isRedeemBounty, Event.isSleep]
  · intro hepoch hopts hlock
    simp [ClaimBounty, hepoch, hopts, hlock, redeemSubmissions, sleepCalls,
      Event.isRedeemBounty, Event.isSleep]

/-- Tests 3 and 4 of `TestClaimBounty`: "epoch error", and epoch 70 with
    "bountyLock error". -/
theorem ClaimBounty_read_errors_witness :
    (ClaimBounty testClaimCore (testClaimUtils claimTest3) ⟨0⟩ testBountyInput 0).result
      = some (zeroHash, some (errorsNew "epoch error")) ∧
    lockReads
      (ClaimBounty testClaimCore (testClaimUtils claimTest3) ⟨0⟩ testBountyInput 0).trace = 0 ∧
    (ClaimBounty testClaimCore (testClaimUtils claimTest4) ⟨0⟩ testBountyInput 0).result
      = some (zeroHash, some (errorsNew "bountyLock error")) ∧
    redeemSubmissions
      (ClaimBounty testClaimCore (testClaimUtils claimTest4) ⟨0⟩ testBountyInput 0).trace = 0 :=
  have h3 := (ClaimBounty_read_errors testClaimCore (testClaimUtils claimTest3) ⟨0⟩
    testBountyInput 0 1 2 3 0 ⟨0⟩ ⟨0, 0⟩ (errorsNew "epoch error")).1 rfl
  have h4 := (ClaimBounty_read_errors testClaimCore (testClaimUtils claimTest4) ⟨0⟩
    testBountyInput 0 1 2 3 70 ⟨0⟩ ⟨0, 0⟩ (errorsNew "bountyLock error")).2 rfl rfl rfl
  ⟨h3.1, h3.2.1, h4.1, h4.2.2⟩

/-- C10: when both reads succeed with `lock.Amount > 0` and the `RedeemBounty`
    submission returns an error, `ClaimBounty` returns the zero hash
    (`core.NilHash`) with a nil error, and the submission was attempted exactly
    once, whether or not the flow had to wait first. -/
theorem ClaimBounty_submission_error {σ : Type} (core : ClaimCore) (u : ClaimUtils σ)
    (client : EthClient) (input : RedeemBountyInput) (w w1 w2 w3 w4 w5 w6 : σ) (epoch : Nat)
    (opts : CallOpts) (lock : BountyLock) (txnOpts : TransactOpts) (txn : Transaction)
    (e : GoError)
    (hepoch : u.GetEpoch client w = ((epoch, none), w1))
    (hopts : u.GetOptions w1 = (opts, w2))
    (hlock : u.GetBountyLock client opts input.BountyId w2 = ((lock, none), w3))
    (hpos : lock.Amount > 0)
    (hwait : w4 = if epoch < lock.RedeemAfter then
        u.Sleep (((lock.RedeemAfter : Int) - (epoch : Int)) * core.EpochLength
          * (u.CalculateBlockTime client w3).1) (u.CalculateBlockTime client w3).2
      else w3)
    (hbuild : u.GetTxnOpts (redeemArgs core client input) w4 = (txnOpts, w5))
    (hsubmit : u.RedeemBounty client txnOpts input.BountyId w5 = ((txn, some e), w6)) :
    (ClaimBounty core u client input w).result = some (zeroHash, none) ∧
    redeemSubmissions (ClaimBounty core u client input w).trace = 1 ∧
    hashCalls (ClaimBounty core u client input w).trace = 0 := by
  have hne : lock.Amount ≠ 0 := by omega
  by_cases hlt : epoch < lock.RedeemAfter
  · have hcast : ((lock.RedeemAfter - epoch : Nat) : Int)
        = (lock.RedeemAfter : Int) - (epoch : Int) := by omega
    simp only [hlt, if_true] at hwait
    simp [ClaimBounty, hepoch, hopts, hlock, hne, hlt, hcast, ← hwait, hbuild, hsubmit,
      redeemSubmissions, hashCalls, Event.isRedeemBounty, Event.isHash]
  · simp only [hlt, if_false] at hwait
    simp [ClaimBounty, hepoch, hopts, hlock, hne, hlt, ← hwait, hbuild, hsubmit,
      redeemSubmissions, hashCalls, Event.isRedeemBounty, Event.isHash]

/-- Test 6 of `TestClaimBounty`: epoch 70, lock of 1000 redeemable after 70,
    `RedeemBounty` fails with "redeemBounty error". -/
theorem ClaimBounty_submission_error_witness :
    (ClaimBounty testClaimCore (testClaimUtils claimTest6) ⟨0⟩ testBountyInput 0).result
      = some (zeroHash, none) ∧
    redeemSubmissions
      (ClaimBounty testClaimCore (testClaimUtils claimTest6) ⟨0⟩ testBountyInput 0).trace = 1 :=
  have h := ClaimBounty_submission_error testClaimCore (testClaimUtils claimTest6) ⟨0⟩
    testBountyInput 0 1 2 3 3 4 5 70 ⟨0⟩ ⟨1000, 70⟩ ⟨1⟩ ⟨7⟩ (errorsNew "redeemBounty error")
    rfl rfl rfl (by decide) rfl rfl rfl
  ⟨h.1, h.2.1⟩

end Razor
